import Mathlib

/-!
Formal model of the Mergington High School activities client
(`src/static/app.js`) and of the signup endpoint it talks to.

The client code is a browser script; we embed its observable behaviour
shallowly: DOM contents become explicit record fields, each `fetch`
round-trip becomes an explicit outcome value passed to the handler, and
`setTimeout` callbacks become timestamped events processed in time order.
-/

/-- An activity record as served by `GET /activities`: description,
schedule, capacity and the ordered list of participant emails. -/
structure Activity where
  description : String
  schedule : String
  max_participants : Nat
  participants : List String
deriving DecidableEq

/-- The activity directory: a JS object used as a map from activity name
to its record, with insertion order preserved (`Object.entries`). -/
abbrev Directory := List (String × Activity)

/-- JS `Array.prototype.join("")`: concatenation of a list of strings. -/
def joinAll : List String → String
  | [] => ""
  | s :: rest => s ++ joinAll rest

/-- The `participantsList` string of `fetchActivities` (app.js lines
25-30): a `<ul>` of `<li>` items when the list is non-empty, otherwise a
placeholder paragraph. -/
def participantsListHTML (participants : List String) : String :=
  if participants.length > 0 then
    "<ul class=\"participants-list\">"
      ++ joinAll (participants.map fun email => "<li>" ++ email ++ "</li>")
      ++ "</ul>"
  else
    "<p class=\"no-participants\">No participants yet</p>"

/-- The part of the card template literal (app.js lines 32-41) before the
interpolated participants list: name, description, schedule and the
capacity fraction are interpolated verbatim between fixed segments. -/
def cardBeforeParticipants (name : String) (d : Activity) : String :=
  "\n          <h4>" ++ name
    ++ "</h4>\n          <p><strong>Description:</strong> " ++ d.description
    ++ "</p>\n          <p><strong>Schedule:</strong> " ++ d.schedule
    ++ "</p>\n          <p><strong>Capacity:</strong> "
    ++ toString d.participants.length ++ "/" ++ toString d.max_participants
    ++ "</p>\n          <div class=\"participants-section\">\n            <p><strong>Current Participants:</strong></p>\n            "

/-- The full `innerHTML` assigned to one activity card (app.js lines
32-41). -/
def activityCardHTML (name : String) (d : Activity) : String :=
  cardBeforeParticipants name d
    ++ participantsListHTML d.participants
    ++ "\n          </div>\n        "

/-- String `s` contains `seg` verbatim, character for character. -/
def containsSeg (s seg : String) : Prop :=
  ∃ s1 s2, s = s1 ++ seg ++ s2

/-- Outcome of the `fetch("/activities")` round-trip: either the fetch
itself rejects, or a response arrives carrying its HTTP ok-status and a
body that either parses as a directory or fails to parse (`none`). -/
inductive FetchOutcome where
  | networkError
  | response (ok : Bool) (body : Option Directory)
deriving DecidableEq

/-- Contents of the `activities-list` container: the initial loading
text from index.html, the static failure paragraph (app.js lines 52-53),
or the appended activity cards (one `innerHTML` string per card). -/
inductive ActivitiesListContent where
  | loading
  | failureMessage
  | cards (cs : List String)
deriving DecidableEq

/-- Observable client state touched by `fetchActivities`: the global
`activities` variable, the `activities-list` contents, the `value`s of
the options currently in the `activity` select, the number of errors
logged to the console, and the number of `fetch` calls issued. -/
structure RenderState where
  activities : Directory
  activitiesList : ActivitiesListContent
  selectOptions : List String
  errorsLogged : Nat
  fetchesIssued : Nat
deriving DecidableEq

/-- Model of `fetchActivities` (app.js lines 10-56) applied to one fetch outcome.
It issues exactly one fetch. On success it overwrites the global
`activities`, clears and refills the list container, and APPENDS one
option per activity to the select without clearing it (lines 45-49).
The HTTP status of the response is never inspected: any body that parses
is rendered. On a rejected fetch or a parse failure it replaces the list
container with the static failure paragraph and logs the error. -/
def fetchActivities (st : RenderState) (outcome : FetchOutcome) : RenderState :=
  match outcome with
  | .networkError =>
    { st with
      activitiesList := .failureMessage
      errorsLogged := st.errorsLogged + 1
      fetchesIssued := st.fetchesIssued + 1 }
  | .response _ none =>
    { st with
      activitiesList := .failureMessage
      errorsLogged := st.errorsLogged + 1
      fetchesIssued := st.fetchesIssued + 1 }
  | .response _ (some dir) =>
    { st with
      activities := dir
      activitiesList := .cards (dir.map fun p => activityCardHTML p.1 p.2)
      selectOptions := st.selectOptions ++ dir.map Prod.fst
      fetchesIssued := st.fetchesIssued + 1 }

/-- Model of `populateActivitySelect` (app.js lines 58-68): resets the select to
the single placeholder option (value `""`) and adds one option per
activity name. This function is defined in app.js but never called. -/
def populateActivitySelect (st : RenderState) : RenderState :=
  { st with selectOptions := [""] ++ st.activities.map Prod.fst }

/-- Client state on DOMContentLoaded, before the initial fetch: empty
`activities` global, the loading text in the list container, and only
the placeholder option (value `""`) from index.html in the select. -/
def initialClientState : RenderState :=
  { activities := []
    activitiesList := .loading
    selectOptions := [""]
    errorsLogged := 0
    fetchesIssued := 0 }

/-- Observable state of the `message` element: its text content, its
class string, and whether the `hidden` class is present. -/
structure MsgState where
  text : String
  className : String
  hidden : Bool
deriving DecidableEq

/-- Events affecting the message element: a `showMessage` call, or the
firing of a `setTimeout` hide callback (app.js lines 120-122). -/
inductive MsgEvent where
  | showMsg (text msgType : String)
  | hideTimeout
deriving DecidableEq

/-- Effect of `showMessage`s body on the message element (app.js lines
114-118): set text, set class to `message` plus the type, and remove
`hidden`. The `setTimeout` it also performs is modelled as a
`hideTimeout` event scheduled 5000 ms later in the timeline below. -/
def showMessage (text msgType : String) : MsgState :=
  { text := text
    className := "message " ++ msgType
    hidden := false }

/-- One event applied to the message element: a show call runs
`showMessage`; a firing hide callback adds the `hidden` class. -/
def msgStep (st : MsgState) (e : MsgEvent) : MsgState :=
  match e with
  | .showMsg text msgType => showMessage text msgType
  | .hideTimeout => { st with hidden := true }

/-- Insert a timestamped event into a chronologically sorted list,
after any event carrying an equal timestamp. -/
def insertEvent (e : Nat × MsgEvent) : List (Nat × MsgEvent) → List (Nat × MsgEvent)
  | [] => [e]
  | x :: xs => if e.1 < x.1 then e :: x :: xs else x :: insertEvent e xs

/-- Sort timestamped events chronologically (stable insertion sort),
modelling the browser event loop running callbacks in deadline order. -/
def sortEvents (l : List (Nat × MsgEvent)) : List (Nat × MsgEvent) :=
  l.foldr insertEvent []

/-- The event timeline generated by a list of `showMessage` calls given
as (time, text, type): each call is a show event at its time and
schedules one hide callback exactly 5000 ms later. No call ever cancels
a previously scheduled callback (app.js has no `clearTimeout`). -/
def timeline (shows : List (Nat × String × String)) : List (Nat × MsgEvent) :=
  sortEvents
    ((shows.map fun p => (p.1, MsgEvent.showMsg p.2.1 p.2.2))
      ++ (shows.map fun p => (p.1 + 5000, MsgEvent.hideTimeout)))

/-- The message element before any show: empty and hidden (index.html
ships it with the `hidden` class). -/
def msgInit : MsgState :=
  { text := "", className := "message hidden", hidden := true }

/-- State of the message element at time `t` after the given
`showMessage` calls: all events with deadline up to `t` are applied in
chronological order. -/
def simulate (shows : List (Nat × String × String)) (t : Nat) : MsgState :=
  ((timeline shows).filter fun e => decide (e.1 ≤ t)).foldl
    (fun st e => msgStep st e.2) msgInit

/-- Outcome of the signup POST round-trip as seen by the submit handler:
the fetch or the JSON parse throws, or a response arrives with its HTTP
ok-status and the optional `detail` field of its parsed body. -/
inductive SignupResponse where
  | networkError
  | response (ok : Bool) (detail : Option String)
deriving DecidableEq

/-- Observable effects of one run of the submit handler: whether the
signup request was issued, the (text, type) passed to `showMessage` if
any, whether the form was reset, and whether `fetchActivities` was
called again to reload the list from the server. -/
structure SubmitResult where
  requestSent : Bool
  messageShown : Option (String × String)
  formReset : Bool
  refetched : Bool
deriving DecidableEq

/-- The `signup-form` submit handler (app.js lines 71-112) applied to
the form field values and the signup round-trip outcome. Empty email or
empty activity aborts before any fetch with a validation error. An ok
response shows the success message, resets the form and re-fetches the
list; a non-ok response shows `result.detail || "An error occurred"`
(so an absent or empty detail falls back) without resetting; a thrown
fetch/parse shows the generic failure message without resetting. -/
def handleSubmit (email activity : String) (resp : SignupResponse) : SubmitResult :=
  if email = "" ∨ activity = "" then
    { requestSent := false
      messageShown := some ("Please fill in all fields", "error")
      formReset := false
      refetched := false }
  else
    match resp with
    | .networkError =>
      { requestSent := true
        messageShown := some ("Failed to sign up. Please try again.", "error")
        formReset := false
        refetched := false }
    | .response ok detail =>
      if ok then
        { requestSent := true
          messageShown := some ("Successfully signed up!", "success")
          formReset := true
          refetched := true }
      else
        { requestSent := true
          messageShown := some
            ((match detail with
              | some s => if s = "" then "An error occurred" else s
              | none => "An error occurred"), "error")
          formReset := false
          refetched := false }

/-- Failure modes of the signup endpoint: unknown activity name
(HTTP 404) or the email already registered (HTTP 400). -/
inductive SignupError where
  | notFound
  | alreadySignedUp
deriving DecidableEq

/-- Lookup of an activity name in the directory (dict access). -/
def dirLookup (dir : Directory) (name : String) : Option Activity :=
  match dir with
  | [] => none
  | (k, v) :: rest => if k = name then some v else dirLookup rest name

/-- Replace the record stored under `name` (in-place dict mutation). -/
def dirUpdate (dir : Directory) (name : String) (act : Activity) : Directory :=
  match dir with
  | [] => []
  | (k, v) :: rest =>
    (if k = name then (k, act) else (k, v)) :: dirUpdate rest name act

/-- Modelled from the spec: the backend `src/app.py` implementing
`POST /activities/{name}/signup?email={email}` is not among the provided
sources. Per spec section 4.1: the activity name must exist (else
NotFound / 404 with a detail message); the email must not already be in
that activity's participant list (else Conflict / 400); on success the
email is appended to the participant list, order preserved, and a
confirmation message is returned (`.ok` corresponds to HTTP 200). -/
def signup (dir : Directory) (name email : String) :
    Except SignupError (Directory × String) :=
  match dirLookup dir name with
  | none => .error .notFound
  | some act =>
    if email ∈ act.participants then
      .error .alreadySignedUp
    else
      .ok (dirUpdate dir name { act with participants := act.participants ++ [email] },
           "Signed up " ++ email ++ " for " ++ name)

/-- A seeded activity used as concrete test data. -/
def chessClub : Activity :=
  { description := "Learn strategies and compete in chess tournaments"
    schedule := "Fridays, 3:30 PM - 5:00 PM"
    max_participants := 12
    participants := ["michael@mergington.edu", "daniel@mergington.edu"] }

/-- A one-activity directory used as concrete test data. -/
def demoDir : Directory := [("Chess Club", chessClub)]

/-- An activity exactly at capacity: 12 participants, capacity 12. -/
def fullClub : Activity :=
  { description := "Learn strategies and compete in chess tournaments"
    schedule := "Fridays, 3:30 PM - 5:00 PM"
    max_participants := 12
    participants :=
      ["e1@mergington.edu", "e2@mergington.edu", "e3@mergington.edu",
       "e4@mergington.edu", "e5@mergington.edu", "e6@mergington.edu",
       "e7@mergington.edu", "e8@mergington.edu", "e9@mergington.edu",
       "e10@mergington.edu", "e11@mergington.edu", "e12@mergington.edu"] }

/-- A directory holding the at-capacity activity. -/
def fullDir : Directory := [("Chess Club", fullClub)]

theorem containsSeg_right (s : String) {seg : String} : containsSeg (s ++ seg) seg :=
  ⟨s, "", by simp⟩

theorem containsSeg_cons (s : String) {t seg : String} (h : containsSeg t seg) :
    containsSeg (s ++ t) seg := by
  obtain ⟨s1, s2, rfl⟩ := h
  exact ⟨s ++ s1, s2, by simp [String.append_assoc]⟩

theorem containsSeg_appR {t seg : String} (y : String) (h : containsSeg t seg) :
    containsSeg (t ++ y) seg := by
  obtain ⟨s1, s2, rfl⟩ := h
  exact ⟨s1, s2 ++ y, by simp [String.append_assoc]⟩

theorem containsSeg_right3 (s a b c : String) : containsSeg (s ++ a ++ b ++ c) (a ++ b ++ c) :=
  ⟨s, "", by simp [String.append_assoc]⟩

theorem containsSeg_joinAll {l : List String} {e : String} (h : e ∈ l) :
    containsSeg (joinAll (l.map fun s => "<li>" ++ s ++ "</li>")) e := by
  induction l with
  | nil => cases h
  | cons a rest ih =>
    rcases List.mem_cons.mp h with rfl | h2
    · exact ⟨"<li>", "</li>" ++ joinAll (rest.map fun s => "<li>" ++ s ++ "</li>"),
        by simp [joinAll, String.append_assoc]⟩
    · obtain ⟨s1, s2, hs⟩ := ih h2
      refine ⟨"<li>" ++ a ++ "</li>" ++ s1, s2, ?_⟩
      simp only [List.map_cons, joinAll]
      rw [hs]
      simp [String.append_assoc]

theorem plist_contains_email {l : List String} {e : String} (h : e ∈ l) :
    containsSeg (participantsListHTML l) e := by
  have hlen : 0 < l.length := List.length_pos.mpr (List.ne_nil_of_mem h)
  rw [participantsListHTML, if_pos hlen]
  exact containsSeg_appR _ (containsSeg_cons _ (containsSeg_joinAll h))

theorem plist_placeholder : containsSeg (participantsListHTML []) "No participants yet" :=
  ⟨"<p class=\"no-participants\">", "</p>", by decide⟩

theorem cardBefore_contains_name (name : String) (d : Activity) :
    containsSeg (cardBeforeParticipants name d) name := by
  unfold cardBeforeParticipants
  exact containsSeg_appR _ (containsSeg_appR _ (containsSeg_appR _ (containsSeg_appR _
    (containsSeg_appR _ (containsSeg_appR _ (containsSeg_appR _ (containsSeg_appR _
      (containsSeg_appR _ (containsSeg_right _)))))))))

theorem cardBefore_contains_description (name : String) (d : Activity) :
    containsSeg (cardBeforeParticipants name d) d.description := by
  unfold cardBeforeParticipants
  exact containsSeg_appR _ (containsSeg_appR _ (containsSeg_appR _ (containsSeg_appR _
    (containsSeg_appR _ (containsSeg_appR _ (containsSeg_appR _ (containsSeg_right _)))))))

theorem cardBefore_contains_schedule (name : String) (d : Activity) :
    containsSeg (cardBeforeParticipants name d) d.schedule := by
  unfold cardBeforeParticipants
  exact containsSeg_appR _ (containsSeg_appR _ (containsSeg_appR _ (containsSeg_appR _
    (containsSeg_appR _ (containsSeg_right _)))))

theorem cardBefore_contains_capacity (name : String) (d : Activity) :
    containsSeg (cardBeforeParticipants name d)
      (toString d.participants.length ++ "/" ++ toString d.max_participants) := by
  unfold cardBeforeParticipants
  exact containsSeg_appR _ (containsSeg_right3 _ _ _ _)

theorem card_contains_name (name : String) (d : Activity) :
    containsSeg (activityCardHTML name d) name := by
  unfold activityCardHTML
  exact containsSeg_appR _ (containsSeg_appR _ (cardBefore_contains_name name d))

theorem card_contains_description (name : String) (d : Activity) :
    containsSeg (activityCardHTML name d) d.description := by
  unfold activityCardHTML
  exact containsSeg_appR _ (containsSeg_appR _ (cardBefore_contains_description name d))

theorem card_contains_schedule (name : String) (d : Activity) :
    containsSeg (activityCardHTML name d) d.schedule := by
  unfold activityCardHTML
  exact containsSeg_appR _ (containsSeg_appR _ (cardBefore_contains_schedule name d))

theorem card_contains_capacity (name : String) (d : Activity) :
    containsSeg (activityCardHTML name d)
      (toString d.participants.length ++ "/" ++ toString d.max_participants) := by
  unfold activityCardHTML
  exact containsSeg_appR _ (containsSeg_appR _ (cardBefore_contains_capacity name d))

theorem card_contains_placeholder (name : String) (d : Activity)
    (h : d.participants = []) :
    containsSeg (activityCardHTML name d) "No participants yet" := by
  unfold activityCardHTML
  rw [h]
  exact containsSeg_appR _ (containsSeg_cons _ plist_placeholder)

theorem card_contains_email (name : String) (d : Activity) {e : String}
    (h : e ∈ d.participants) :
    containsSeg (activityCardHTML name d) e := by
  unfold activityCardHTML
  exact containsSeg_appR _ (containsSeg_cons _ (plist_contains_email h))

theorem dirLookup_dirUpdate (dir : Directory) (name : String) (v a : Activity)
    (h : dirLookup dir name = some a) :
    dirLookup (dirUpdate dir name v) name = some v := by
  induction dir with
  | nil => simp [dirLookup] at h
  | cons p rest ih =>
    obtain ⟨k, w⟩ := p
    by_cases hk : k = name
    · show dirLookup ((if k = name then (k, v) else (k, w)) :: dirUpdate rest name v)
        name = some v
      rw [if_pos hk, dirLookup, if_pos hk]
    · rw [dirLookup, if_neg hk] at h
      show dirLookup ((if k = name then (k, v) else (k, w)) :: dirUpdate rest name v)
        name = some v
      rw [if_neg hk, dirLookup, if_neg hk]
      exact ih h

/-- Claim C7: a contract for the rendering of a single activity: the load
operation renders exactly one card per directory entry (no filtering, in
particular none by capacity), and the card for `(name, d)` verbatim
contains the name, description, schedule, the capacity fraction
`participants.length/max_participants`, the placeholder text when the
participant list is empty, and every participant email. -/
def CardRendered (st : RenderState) (ok : Bool) (dir : Directory)
    (name : String) (d : Activity) : Prop :=
  (fetchActivities st (FetchOutcome.response ok (some dir))).activitiesList
      = ActivitiesListContent.cards (dir.map fun p => activityCardHTML p.1 p.2) ∧
  activityCardHTML name d ∈ dir.map (fun p => activityCardHTML p.1 p.2) ∧
  containsSeg (activityCardHTML name d) name ∧
  containsSeg (activityCardHTML name d) d.description ∧
  containsSeg (activityCardHTML name d) d.schedule ∧
  containsSeg (activityCardHTML name d)
    (toString d.participants.length ++ "/" ++ toString d.max_participants) ∧
  (d.participants = [] → containsSeg (activityCardHTML name d) "No participants yet") ∧
  (∀ e ∈ d.participants, containsSeg (activityCardHTML name d) e)

/-- Claim C7: for every activity in the fetched snapshot, including one at
capacity (`participants.length = max_participants`), the load operation
produces exactly one card per entry, containing name, description,
schedule, the capacity fraction, and the full participant list (or the
placeholder when empty); capacity never suppresses or alters rendering. -/
theorem c7_card_rendered_at_capacity (st : RenderState) (ok : Bool)
    (dir : Directory) (name : String) (d : Activity) (h : (name, d) ∈ dir) :
    CardRendered st ok dir name d := by
  have hm : activityCardHTML name d ∈ dir.map (fun p => activityCardHTML p.1 p.2) :=
    List.mem_map.mpr ⟨(name, d), h, by simp⟩
  unfold CardRendered
  refine ⟨?_, ?_, ?_, ?_, ?_, ?_, ?_, ?_⟩
  · rfl
  · exact hm
  · exact card_contains_name name d
  · exact card_contains_description name d
  · exact card_contains_schedule name d
  · exact card_contains_capacity name d
  · exact fun he => card_contains_placeholder name d he
  · exact fun e he => card_contains_email name d he

/-- Witness for C7 at a concrete at-capacity activity: 12 participants,
capacity 12, capacity fraction rendered as `12/12`. -/
theorem c7_card_rendered_at_capacity_witness :
    ("Chess Club", fullClub) ∈ fullDir ∧
    fullClub.participants.length = fullClub.max_participants ∧
    toString fullClub.participants.length ++ "/" ++ toString fullClub.max_participants
      = "12/12" ∧
    CardRendered initialClientState true fullDir "Chess Club" fullClub :=
  ⟨List.mem_singleton.mpr rfl, by decide, by decide,
    c7_card_rendered_at_capacity initialClientState true fullDir "Chess Club" fullClub
      (List.mem_singleton.mpr rfl)⟩

/-- Claim C10: the card template interpolates the activity name,
description, schedule and each participant email into the generated
`innerHTML` verbatim, character for character, with no HTML escaping. -/
theorem c10_verbatim_interpolation (name : String) (d : Activity) :
    containsSeg (activityCardHTML name d) name ∧
    containsSeg (activityCardHTML name d) d.description ∧
    containsSeg (activityCardHTML name d) d.schedule ∧
    ∀ e ∈ d.participants, containsSeg (activityCardHTML name d) e :=
  ⟨card_contains_name name d, card_contains_description name d,
   card_contains_schedule name d, fun _ he => card_contains_email name d he⟩

/-- An activity whose fields carry HTML markup, exercising the absence of
escaping in the card template. -/
def markupActivity : Activity :=
  { description := "<img src=x onerror=alert(1)>"
    schedule := "<b>Mondays</b>"
    max_participants := 5
    participants := ["<script>alert(2)</script>@mergington.edu"] }

/-- Witness for C10: a participant email containing script markup appears
verbatim in the generated card HTML. -/
theorem c10_verbatim_interpolation_witness :
    containsSeg (activityCardHTML "<h1>Club</h1>" markupActivity)
      "<script>alert(2)</script>@mergington.edu" :=
  (c10_verbatim_interpolation "<h1>Club</h1>" markupActivity).2.2.2
    "<script>alert(2)</script>@mergington.edu" (List.mem_singleton.mpr rfl)

/-- Claim C8: when the fetch rejects or the JSON parse of the response
throws, the activities list area is replaced with the static failure
message, exactly one error is logged, and exactly one fetch was issued
(no automatic retry: `fetchesIssued` grows by exactly 1). -/
theorem c8_load_failure_message (st : RenderState) (ok : Bool) :
    fetchActivities st FetchOutcome.networkError
      = { st with
          activitiesList := ActivitiesListContent.failureMessage
          errorsLogged := st.errorsLogged + 1
          fetchesIssued := st.fetchesIssued + 1 } ∧
    fetchActivities st (FetchOutcome.response ok none)
      = { st with
          activitiesList := ActivitiesListContent.failureMessage
          errorsLogged := st.errorsLogged + 1
          fetchesIssued := st.fetchesIssued + 1 } :=
  ⟨rfl, rfl⟩

/-- Claim C9: the load operation never inspects the HTTP status: the
result is identical for any `ok` flag, any response whose body parses is
rendered as activity data, and the failure message appears exactly when
the fetch rejects or the body fails to parse. -/
theorem c9_status_never_inspected (st : RenderState) (ok : Bool) (dir : Directory) :
    fetchActivities st (FetchOutcome.response ok (some dir))
      = fetchActivities st (FetchOutcome.response true (some dir)) ∧
    (fetchActivities st (FetchOutcome.response ok (some dir))).activitiesList
      = ActivitiesListContent.cards (dir.map fun p => activityCardHTML p.1 p.2) ∧
    ∀ oc : FetchOutcome,
      (fetchActivities st oc).activitiesList = ActivitiesListContent.failureMessage
        ↔ (oc = FetchOutcome.networkError ∨ ∃ b, oc = FetchOutcome.response b none) := by
  refine ⟨rfl, rfl, fun oc => ?_⟩
  cases oc with
  | networkError => simp [fetchActivities]
  | response b body =>
    cases body with
    | none => simp [fetchActivities]
    | some d2 => simp [fetchActivities]

/-- Claim C1: after the second completed load over the same one-activity
snapshot (as happens on the re-fetch after a successful signup), the
select control holds TWO options named `Chess Club` rather than one:
`fetchActivities` appends options without clearing the select, and the
clearing function `populateActivitySelect` (whose behaviour, also shown
here, would restore exactly one option per name) is never called. -/
theorem c1_select_accumulates_options :
    (fetchActivities (fetchActivities initialClientState
        (FetchOutcome.response true (some demoDir)))
        (FetchOutcome.response true (some demoDir))).selectOptions
      = ["", "Chess Club", "Chess Club"] ∧
    ((fetchActivities (fetchActivities initialClientState
        (FetchOutcome.response true (some demoDir)))
        (FetchOutcome.response true (some demoDir))).selectOptions.count "Chess Club"
      = 2) ∧
    ((populateActivitySelect (fetchActivities (fetchActivities initialClientState
        (FetchOutcome.response true (some demoDir)))
        (FetchOutcome.response true (some demoDir)))).selectOptions.count "Chess Club"
      = 1) := by
  refine ⟨rfl, ?_, ?_⟩ <;> decide

/-- Claim C4: with both fields non-empty the submit handler issues the
signup request for every round-trip outcome, and on an ok (2xx) response
it shows the success message, resets the form, and re-fetches the
activity list from the server instead of patching local state. -/
theorem c4_submit_success (email activity : String) (resp : SignupResponse)
    (he : email ≠ "") (ha : activity ≠ "") :
    (handleSubmit email activity resp).requestSent = true ∧
    ∀ detail : Option String,
      handleSubmit email activity (SignupResponse.response true detail)
        = { requestSent := true
            messageShown := some ("Successfully signed up!", "success")
            formReset := true
            refetched := true } := by
  have hcond : ¬ (email = "" ∨ activity = "") := by simp [he, ha]
  constructor
  · unfold handleSubmit
    rw [if_neg hcond]
    cases resp with
    | networkError => rfl
    | response ok detail => cases ok <;> rfl
  · intro detail
    unfold handleSubmit
    rw [if_neg hcond]
    rfl

/-- Witness for C4 at concrete non-empty fields and an ok response. -/
theorem c4_submit_success_witness :
    ("ada@mergington.edu" : String) ≠ "" ∧ ("Chess Club" : String) ≠ "" ∧
    ((handleSubmit "ada@mergington.edu" "Chess Club"
        (SignupResponse.response true none)).requestSent = true ∧
      ∀ detail : Option String,
        handleSubmit "ada@mergington.edu" "Chess Club"
            (SignupResponse.response true detail)
          = { requestSent := true
              messageShown := some ("Successfully signed up!", "success")
              formReset := true
              refetched := true }) :=
  ⟨by decide, by decide,
    c4_submit_success "ada@mergington.edu" "Chess Club"
      (SignupResponse.response true none) (by decide) (by decide)⟩

/-- Claim C5: if either form field is the empty string, the submit
handler shows the local validation error and stops: no request is sent,
the form is not reset, and no re-fetch happens. -/
theorem c5_validation_aborts (email activity : String) (resp : SignupResponse)
    (h : email = "" ∨ activity = "") :
    handleSubmit email activity resp
      = { requestSent := false
          messageShown := some ("Please fill in all fields", "error")
          formReset := false
          refetched := false } := by
  unfold handleSubmit
  rw [if_pos h]

/-- Witness for C5 with an empty email field. -/
theorem c5_validation_aborts_witness :
    (("" : String) = "" ∨ ("Chess Club" : String) = "") ∧
    handleSubmit "" "Chess Club" (SignupResponse.response true none)
      = { requestSent := false
          messageShown := some ("Please fill in all fields", "error")
          formReset := false
          refetched := false } :=
  ⟨Or.inl rfl,
    c5_validation_aborts "" "Chess Club" (SignupResponse.response true none) (Or.inl rfl)⟩

/-- Claim C6: on a failed signup the handler shows the server-provided
detail when a non-empty one is present, otherwise the generic fallback
(`An error occurred` for a non-ok response, the network-failure text for
a thrown fetch/parse), and never resets the form. -/
theorem c6_submit_failure (email activity : String)
    (he : email ≠ "") (ha : activity ≠ "") :
    (∀ s : String, s ≠ "" →
      handleSubmit email activity (SignupResponse.response false (some s))
        = { requestSent := true
            messageShown := some (s, "error")
            formReset := false
            refetched := false }) ∧
    handleSubmit email activity (SignupResponse.response false none)
      = { requestSent := true
          messageShown := some ("An error occurred", "error")
          formReset := false
          refetched := false } ∧
    handleSubmit email activity (SignupResponse.response false (some ""))
      = { requestSent := true
          messageShown := some ("An error occurred", "error")
          formReset := false
          refetched := false } ∧
    handleSubmit email activity SignupResponse.networkError
      = { requestSent := true
          messageShown := some ("Failed to sign up. Please try again.", "error")
          formReset := false
          refetched := false } := by
  have hcond : ¬ (email = "" ∨ activity = "") := by simp [he, ha]
  refine ⟨fun s hs => ?_, ?_, ?_, ?_⟩
  · unfold handleSubmit
    rw [if_neg hcond]
    simp [hs]
  · unfold handleSubmit
    rw [if_neg hcond]
    rfl
  · unfold handleSubmit
    rw [if_neg hcond]
    rfl
  · unfold handleSubmit
    rw [if_neg hcond]

/-- Witness for C6: a non-empty server detail is shown verbatim. -/
theorem c6_submit_failure_witness :
    ("sophia@mergington.edu" : String) ≠ "" ∧ ("Chess Club" : String) ≠ "" ∧
    ("Student is already signed up" : String) ≠ "" ∧
    handleSubmit "sophia@mergington.edu" "Chess Club"
        (SignupResponse.response false (some "Student is already signed up"))
      = { requestSent := true
          messageShown := some ("Student is already signed up", "error")
          formReset := false
          refetched := false } :=
  ⟨by decide, by decide, by decide,
    (c6_submit_failure "sophia@mergington.edu" "Chess Club"
        (by decide) (by decide)).1 "Student is already signed up" (by decide)⟩

/-- Claim C3: for an existing activity and an email not yet registered,
signup succeeds, and afterwards the email appears exactly once in that
activity's participant list, appended at the end, with the prior order
of earlier participants preserved. -/
theorem c3_signup_appends (dir : Directory) (name email : String) (act : Activity)
    (hfound : dirLookup dir name = some act)
    (hfresh : email ∉ act.participants) :
    ∃ out : Directory × String,
      signup dir name email = Except.ok out ∧
      dirLookup out.1 name
        = some { act with participants := act.participants ++ [email] } ∧
      (act.participants ++ [email]).count email = 1 ∧
      (act.participants ++ [email]).take act.participants.length
        = act.participants := by
  refine ⟨(dirUpdate dir name { act with participants := act.participants ++ [email] },
          "Signed up " ++ email ++ " for " ++ name), ?_, ?_, ?_, ?_⟩
  · rw [signup, hfound]
    simp [hfresh]
  · exact dirLookup_dirUpdate dir name _ act hfound
  · simp [List.count_append, List.count_eq_zero.mpr hfresh]
  · simp [List.take_left]

/-- Witness for C3: Ada signs up for the seeded Chess Club. -/
theorem c3_signup_appends_witness :
    dirLookup demoDir "Chess Club" = some chessClub ∧
    ("ada@mergington.edu" : String) ∉ chessClub.participants ∧
    ∃ out : Directory × String,
      signup demoDir "Chess Club" "ada@mergington.edu" = Except.ok out ∧
      dirLookup out.1 "Chess Club"
        = some { chessClub with
                 participants := chessClub.participants ++ ["ada@mergington.edu"] } ∧
      (chessClub.participants ++ ["ada@mergington.edu"]).count "ada@mergington.edu"
        = 1 ∧
      (chessClub.participants ++ ["ada@mergington.edu"]).take
          chessClub.participants.length
        = chessClub.participants :=
  ⟨rfl, by decide,
    c3_signup_appends demoDir "Chess Club" "ada@mergington.edu" chessClub rfl
      (by decide)⟩

theorem insertEvent_nil (e : Nat × MsgEvent) : insertEvent e [] = [e] := rfl

theorem insertEvent_cons (e x : Nat × MsgEvent) (xs : List (Nat × MsgEvent)) :
    insertEvent e (x :: xs)
      = if e.1 < x.1 then e :: x :: xs else x :: insertEvent e xs := rfl

/-- Counterexample for claim C2: `showMessage` never cancels the pending
hide timer of an earlier message (app.js has no `clearTimeout`), so the
message shown at t = 2000 ms is already hidden at t = 5000 ms, when the
first call to `showMessage` had its timer fire, only 3 seconds after the
second message was shown, although its own timer runs to t = 7000 ms. -/
theorem c2_hidden_early_counterexample :
    (simulate [(0, "Successfully signed up!", "success"),
               (2000, "Already signed up", "error")] 5000).text
      = "Already signed up" ∧
    (simulate [(0, "Successfully signed up!", "success"),
               (2000, "Already signed up", "error")] 5000).hidden = true ∧
    5000 < 2000 + 5000 := by
  refine ⟨?_, ?_, ?_⟩ <;> decide

/-- Claim C2 (amended): a new `showMessage` call while a message is
visible replaces the content and class and schedules an additional
5-second hide timer, but the pending timer of the earlier message is not
cancelled, so the new message is hidden when the earlier timer fires at
`t1 + 5000`, before its own full 5 seconds (`t2 + 5000`) have elapsed. -/
theorem c2_pending_timer_hides_new_message (t1 t2 : Nat) (a ty1 b ty2 : String)
    (h1 : t1 < t2) (h2 : t2 < t1 + 5000) :
    simulate [(t1, a, ty1), (t2, b, ty2)] (t1 + 5000)
      = { text := b, className := "message " ++ ty2, hidden := true } ∧
    t1 + 5000 < t2 + 5000 := by
  have h3 : t1 + 5000 < t2 + 5000 := by omega
  have h4 : t1 ≤ t1 + 5000 := by omega
  have h5 : t2 ≤ t1 + 5000 := by omega
  have h6 : ¬ (t2 + 5000 ≤ t1 + 5000) := by omega
  have ht : timeline [(t1, a, ty1), (t2, b, ty2)]
      = [(t1, MsgEvent.showMsg a ty1), (t2, MsgEvent.showMsg b ty2),
         (t1 + 5000, MsgEvent.hideTimeout), (t2 + 5000, MsgEvent.hideTimeout)] := by
    show sortEvents [(t1, MsgEvent.showMsg a ty1), (t2, MsgEvent.showMsg b ty2),
      (t1 + 5000, MsgEvent.hideTimeout), (t2 + 5000, MsgEvent.hideTimeout)] = _
    unfold sortEvents
    simp only [List.foldr_cons, List.foldr_nil]
    rw [insertEvent_nil, insertEvent_cons, if_pos h3, insertEvent_cons, if_pos h2,
        insertEvent_cons, if_pos h1]
  refine ⟨?_, h3⟩
  unfold simulate
  rw [ht]
  simp only [List.filter_cons, List.filter_nil, decide_eq_true_eq]
  rw [if_pos h4, if_pos h5, if_pos (Nat.le_refl (t1 + 5000)), if_neg h6]
  simp only [List.foldl_cons, List.foldl_nil, msgStep, showMessage]

/-- Witness for the amended C2 at t1 = 1000, t2 = 3000. -/
theorem c2_pending_timer_hides_new_message_witness :
    simulate [(1000, "Successfully signed up!", "success"),
              (3000, "Activity not found", "error")] (1000 + 5000)
      = { text := "Activity not found", className := "message " ++ "error",
          hidden := true } ∧
    1000 + 5000 < 3000 + 5000 :=
  c2_pending_timer_hides_new_message 1000 3000
    "Successfully signed up!" "success" "Activity not found" "error"
    (by decide) (by decide)
